import Mathlib

/-
Verification of the orchestration logic in src/agent.py
(class JunoMonteraRealEstateAgent).

The Python code is shallowly embedded as follows.

* Dynamic (JSON-like) Python values are the inductive type PyVal.
  Python truthiness is the function truthy; dictionary access d[k] and
  d.get(k, default) are lookupKey / pyGet / pyGetD.  A Python KeyError or
  AttributeError is modelled by the Except.error branch of the functions
  that can raise.
* str.lower() is pyLower (character-wise lowercasing, as Python does for
  the ASCII range); f-string interpolation is string concatenation; the
  textual form str(x) that an f-string embeds for a list or dict value is
  pyRepr.  The max_price float is carried as its already-rendered decimal
  string, since only its interpolated text ever matters to the code.
* The two external backends (self.firecrawl.extract and self.agent.run)
  are opaque parameters:  extract maps a URL list and an instruction
  prompt to a raw response value, run maps a composed prompt to the
  generated text (the .content projection of the agno RunResponse).
  The fixed schema descriptor argument of extract is a constant and is
  omitted from the embedding; no claim mentions it.
-/

/-- Dynamic Python values as returned by the extraction backend. -/
inductive PyVal where
  | none : PyVal
  | bool (b : Bool) : PyVal
  | int (n : Int) : PyVal
  | str (s : String) : PyVal
  | list (xs : List PyVal) : PyVal
  | dict (kvs : List (String × PyVal)) : PyVal

/-- First binding of a key in a Python dict (embedded as an association list). -/
def lookupKey (kvs : List (String × PyVal)) (k : String) : Option PyVal :=
  match kvs with
  | [] => Option.none
  | (k1, v) :: rest => if k1 = k then some v else lookupKey rest k

/-- Python d.get(k): the value at k, or None when the key is absent. -/
def pyGet (kvs : List (String × PyVal)) (k : String) : PyVal :=
  (lookupKey kvs k).getD PyVal.none

/-- Python d.get(k, default): the value at k, or the default when absent. -/
def pyGetD (kvs : List (String × PyVal)) (k : String) (d : PyVal) : PyVal :=
  (lookupKey kvs k).getD d

/-- Python truthiness of a value, as used by the if-condition on the raw response. -/
def truthy : PyVal → Bool
  | PyVal.none => false
  | PyVal.bool b => b
  | PyVal.int n => decide (n ≠ 0)
  | PyVal.str s => decide (s ≠ "")
  | PyVal.list xs => !xs.isEmpty
  | PyVal.dict kvs => !kvs.isEmpty

/-- The discriminator on line 90 and line 130 of agent.py:
isinstance(raw_response, dict) and raw_response.get(\x27success\x27). -/
def successCheck : PyVal → Bool
  | PyVal.dict kvs => truthy (pyGet kvs "success")
  | _ => false

mutual
/-- Textual form that a Python f-string embeds for a value (str/repr).
String quoting is simplified to plain quotes without escaping; the
claims only ever evaluate it on values without quotes inside. -/
def pyRepr : PyVal → String
  | PyVal.none => "None"
  | PyVal.bool true => "True"
  | PyVal.bool false => "False"
  | PyVal.int n => toString n
  | PyVal.str s => "\x27" ++ (s ++ "\x27")
  | PyVal.list xs => "[" ++ (pyReprJoin xs ++ "]")
  | PyVal.dict kvs => "\x7b" ++ (pyReprDictJoin kvs ++ "\x7d")

/-- Comma-joined reprs of the elements of a Python list. -/
def pyReprJoin : List PyVal → String
  | [] => ""
  | [x] => pyRepr x
  | x :: y :: xs => pyRepr x ++ (", " ++ pyReprJoin (y :: xs))

/-- Comma-joined reprs of the entries of a Python dict. -/
def pyReprDictJoin : List (String × PyVal) → String
  | [] => ""
  | [(k, v)] => "\x27" ++ (k ++ ("\x27: " ++ pyRepr v))
  | (k, v) :: y :: xs =>
      "\x27" ++ (k ++ ("\x27: " ++ (pyRepr v ++ (", " ++ pyReprDictJoin (y :: xs)))))
end

/-- Python str.lower(), character-wise (agent.py lowercases only city names,
which the UI takes as plain text; for the ASCII range this is exactly
what Python does). -/
def pyLower (s : String) : String :=
  String.mk (s.data.map Char.toLower)

/-- The needle string occurs contiguously inside the hay string. -/
def containsSub (hay needle : String) : Prop :=
  needle.data <:+: hay.data

instance (hay needle : String) : Decidable (containsSub hay needle) :=
  inferInstanceAs (Decidable (needle.data <:+: hay.data))

/-- Lines 61 and 63-67 of agent.py: the three property-search URLs built
from the lowercased city. -/
def find_properties_urls (city : String) : List String :=
  let formatted_location := pyLower city
  ["https://www.squareyards.com/sale/property-for-sale-in-" ++ (formatted_location ++ "/*"),
   "https://www.99acres.com/property-in-" ++ (formatted_location ++ "-ffid/*"),
   "https://housing.com/in/buy/" ++ (formatted_location ++ ("/" ++ formatted_location))]

/-- Line 69 of agent.py: the pluralized property-type label. -/
def property_type_prompt (property_type : String) : String :=
  if property_type = "Flat" then "Flats" else "Individual Houses"

/-- Lines 74-85 of agent.py: the extraction instruction f-string, with the
exact text and whitespace of the source. -/
def find_properties_extraction_prompt
    (property_category ptp city max_price : String) : String :=
  "Extract up to 10 different " ++ (property_category ++ (" " ++ (ptp ++ (" in " ++ (city ++ (" under " ++ (max_price ++ (" crores.\n                \n                Data Extraction Criteria:\n                - Category: " ++ (property_category ++ ("\n                - Property Type: " ++ (ptp ++ ("\n                - Maximum Price: " ++ (max_price ++ (" \n                - Location: " ++ (city ++ ("\n                - At least 3 and up to 10 properties\n                - Include key details like name, price, location, and amenities\n                \n                Return the data in JSON format based on the schema.\n                "))))))))))))))))

/-- Lines 97-111 of agent.py: the analysis f-string handed to agent.run,
with the exact text and whitespace of the source. -/
def find_properties_analysis_prompt (city max_price : String) (properties : PyVal) : String :=
  "Juno Montera Market Analysis - " ++ (city ++ ("\n            \n            Properties Data:\n            " ++ (pyRepr properties ++ ("\n\n            **Analysis Requirements:**\n            - Select 5-6 properties closest to " ++ (max_price ++ (" crores.\n            - Highlight key features, price, and investment potential in commercial real estate.\n            - Provide a structured breakdown including:\n              🏢 **Selected Commercial Properties**\n              💼 **Best Value Analysis for Investors**\n              📍 **Location Insights for Brokers**\n              💡 **Investment Recommendations for Lenders**\n              🤝 **Negotiation Tips for Borrowers**\n            "))))))

/-- Lines 90-93 of agent.py: normalization of the raw extraction response
into the properties list.  A response that is not a dict or has no truthy
success entry yields the empty list; a dict with truthy success is
indexed with raw_response[\x27data\x27], which raises KeyError when the key
is absent (and .get on a non-dict value raises AttributeError); both
raises are the error branch. -/
def find_properties_records (raw_response : PyVal) : Except String PyVal :=
  match raw_response with
  | PyVal.dict kvs =>
      if truthy (pyGet kvs "success") then
        match lookupKey kvs "data" with
        | some (PyVal.dict d) => Except.ok (pyGetD d "properties" (PyVal.list []))
        | some _ => Except.error "AttributeError"
        | Option.none => Except.error "KeyError"
      else Except.ok (PyVal.list [])
  | _ => Except.ok (PyVal.list [])

/-- Lines 53-114 of agent.py: find_properties, parameterized by the two
external backends.  The result is the returned analysis text, or the
error branch when the response handling raises. -/
def find_properties (extract : List String → String → PyVal) (run : String → String)
    (city max_price property_category property_type : String) : Except String String :=
  let urls := find_properties_urls city
  let ptp := property_type_prompt property_type
  let raw_response := extract urls (find_properties_extraction_prompt property_category ptp city max_price)
  match find_properties_records raw_response with
  | Except.error e => Except.error e
  | Except.ok properties =>
      Except.ok (run (find_properties_analysis_prompt city max_price properties))

/-- Lines 118-120 of agent.py: the single trends URL built from the lowercased city. -/
def get_location_trends_urls (city : String) : List String :=
  ["https://www.99acres.com/property-rates-and-price-trends-in-" ++ (pyLower city ++ "-prffid/*")]

/-- Lines 121-126 of agent.py: the fixed trends extraction instruction. -/
def get_location_trends_extraction_prompt : String :=
  "Extract price trends data for ALL major localities in the city. \n            Ensure:\n            - Data for 5-10 localities.\n            - Cover premium and affordable locations.\n            - Format output as structured data.\n            "

/-- Lines 134-148 of agent.py: the trends analysis f-string handed to
agent.run, with the exact text and whitespace of the source. -/
def get_location_trends_analysis_prompt (city : String) (locations : PyVal) : String :=
  "Juno Montera - Market Trends in " ++ (city ++ ("\n\n                📊 **Summary of Location Price Trends in " ++ (city ++ ("**\n                " ++ (pyRepr locations ++ ("\n\n                🏆 **Top Investment Areas in " ++ (city ++ ("**\n                - Highest price appreciation\n                - Best rental yields\n                - Most affordable with future potential\n\n                🎯 **Recommendations for Investors in " ++ (city ++ ("**\n                - Best areas for long-term investment\n                - High-demand rental locations\n                - Growth corridors to watch\n                "))))))))))

/-- Lines 116-153 of agent.py: get_location_trends, parameterized by the two
external backends.  A dict response with truthy success is indexed with
raw_response[\x27data\x27] (KeyError when absent, AttributeError when the
value has no .get); any other response falls through to the fixed
no-data string on line 153. -/
def get_location_trends (extract : List String → String → PyVal) (run : String → String)
    (city : String) : Except String String :=
  let raw_response := extract (get_location_trends_urls city) get_location_trends_extraction_prompt
  match raw_response with
  | PyVal.dict kvs =>
      if truthy (pyGet kvs "success") then
        match lookupKey kvs "data" with
        | some (PyVal.dict d) =>
            let locations := pyGetD d "locations" (PyVal.list [])
            Except.ok (run (get_location_trends_analysis_prompt city locations))
        | some _ => Except.error "AttributeError"
        | Option.none => Except.error "KeyError"
      else Except.ok "No price trends data available"
  | _ => Except.ok "No price trends data available"

/-- The four user-supplied search parameters of the spec data model.
max_price carries the rendered decimal text of the price. -/
structure SearchParameters where
  city : String
  max_price : String
  property_category : String
  property_type : String

/-- The request-builder step of find_properties: the URL list and the
extraction instruction, as a pure function of the parameters. -/
def buildPropertyRequest (p : SearchParameters) : List String × String :=
  (find_properties_urls p.city,
   find_properties_extraction_prompt p.property_category
     (property_type_prompt p.property_type) p.city p.max_price)

/-- The request-builder step of get_location_trends: the single URL and the
fixed instruction. -/
def buildTrendRequest (city : String) : List String × String :=
  (get_location_trends_urls city, get_location_trends_extraction_prompt)

/- Helper lemmas about characters, lowercasing and substring occurrence. -/

theorem toLower_not_upper (c : Char) : (Char.toLower c).isUpper = false := by
  show (if c.toNat ≥ 65 ∧ c.toNat ≤ 90 then Char.ofNat (c.toNat + 32) else c).isUpper = false
  by_cases h : 65 ≤ c.toNat ∧ c.toNat ≤ 90
  · rw [if_pos h]
    obtain ⟨h1, h2⟩ := h
    generalize c.toNat = n at h1 h2
    interval_cases n <;> decide
  · rw [if_neg h]
    push_neg at h
    simp only [Char.isUpper]
    rw [Bool.and_eq_false_iff]
    rcases Nat.lt_or_ge c.toNat 65 with hlt | hge
    · left
      apply decide_eq_false
      intro hle
      have h2 : (65 : Nat) ≤ c.val.toNat := UInt32.le_toNat_of_le (by decide) hle
      have h3 : c.val.toNat < 65 := hlt
      omega
    · right
      have h90 := h hge
      apply decide_eq_false
      intro hle
      have h2 : c.val.toNat ≤ (90 : Nat) := UInt32.toNat_le_of_le (by decide) hle
      have h3 : 90 < c.val.toNat := h90
      omega

theorem pyLower_data (s : String) : (pyLower s).data = s.data.map Char.toLower := rfl

theorem pyLower_chars (s : String) : ∀ c ∈ (pyLower s).data, c.isUpper = false := by
  intro c hc
  rw [pyLower_data] at hc
  obtain ⟨a, _, rfl⟩ := List.mem_map.1 hc
  exact toLower_not_upper a

theorem append_chars {p q : String} (hp : ∀ c ∈ p.data, c.isUpper = false)
    (hq : ∀ c ∈ q.data, c.isUpper = false) : ∀ c ∈ (p ++ q).data, c.isUpper = false := by
  intro c hc
  rw [String.data_append] at hc
  rcases List.mem_append.1 hc with h | h
  · exact hp c h
  · exact hq c h

theorem containsSub_head (n t : String) : containsSub (n ++ t) n :=
  ⟨[], t.data, by simp [String.data_append]⟩

theorem containsSub_here (p n t : String) : containsSub (p ++ (n ++ t)) n :=
  ⟨p.data, t.data, by simp [String.data_append]⟩

theorem containsSub_skip (a : String) {b n : String} (h : containsSub b n) :
    containsSub (a ++ b) n := by
  obtain ⟨s, t, hst⟩ := h
  exact ⟨a.data ++ s, t, by rw [String.data_append, ← hst]; simp [List.append_assoc]⟩

/- Claim theorems. -/

/-- C1 counterexample: the mapping with a truthy success flag but no data
payload is in the domain of the claim (its shape misses the expected
payload), yet the extraction handling raises a KeyError in both flows
instead of yielding an empty record collection. -/
theorem missing_data_payload_raises :
    find_properties_records (PyVal.dict [("success", PyVal.bool true)]) = Except.error "KeyError" ∧
    find_properties_records (PyVal.dict [("success", PyVal.bool true)]) ≠ Except.ok (PyVal.list []) ∧
    get_location_trends (fun _ _ => PyVal.dict [("success", PyVal.bool true)]) (fun s => s) "Mumbai"
      = Except.error "KeyError" := by
  refine ⟨rfl, ?_, rfl⟩
  intro hcontra
  exact Except.noConfusion hcontra

/-- C1 amended: for every extraction response that is not a mapping or lacks
a truthy success entry, find_properties yields the empty record collection
and proceeds to summarization without exception, and get_location_trends
takes the no-data branch without exception.  (A mapping with truthy
success but missing data payload instead raises, per the counterexample.) -/
theorem nonsuccess_collapses_to_empty (v : PyVal) (run : String → String)
    (city max_price property_category property_type : String)
    (h : successCheck v = false) :
    find_properties_records v = Except.ok (PyVal.list []) ∧
    find_properties (fun _ _ => v) run city max_price property_category property_type
      = Except.ok (run (find_properties_analysis_prompt city max_price (PyVal.list []))) ∧
    get_location_trends (fun _ _ => v) run city = Except.ok "No price trends data available" := by
  cases v with
  | dict kvs =>
      have hb : truthy (pyGet kvs "success") = false := h
      refine ⟨?_, ?_, ?_⟩
      · simp [find_properties_records, hb]
      · simp [find_properties, find_properties_records, hb]
      · simp [get_location_trends, hb]
  | none => exact ⟨rfl, rfl, rfl⟩
  | bool b => exact ⟨rfl, rfl, rfl⟩
  | int n => exact ⟨rfl, rfl, rfl⟩
  | str s => exact ⟨rfl, rfl, rfl⟩
  | list xs => exact ⟨rfl, rfl, rfl⟩

/-- Witness for nonsuccess_collapses_to_empty at a concrete non-dict response. -/
theorem nonsuccess_collapses_to_empty_witness :
    successCheck (PyVal.str "crawl failed") = false ∧
    (find_properties_records (PyVal.str "crawl failed") = Except.ok (PyVal.list []) ∧
     find_properties (fun _ _ => PyVal.str "crawl failed") (fun s => s) "Mumbai" "5.0" "Residential" "Flat"
       = Except.ok ((fun s => s) (find_properties_analysis_prompt "Mumbai" "5.0" (PyVal.list []))) ∧
     get_location_trends (fun _ _ => PyVal.str "crawl failed") (fun s => s) "Mumbai"
       = Except.ok "No price trends data available") :=
  ⟨rfl, nonsuccess_collapses_to_empty (PyVal.str "crawl failed") (fun s => s)
    "Mumbai" "5.0" "Residential" "Flat" rfl⟩

/-- C2: for every city string the request construction produces exactly 3
URLs in find_properties and exactly 1 URL in get_location_trends, each URL
contains the lowercased city as a substring and no URL contains any
uppercase character (so none taken from the original city casing); and for
city Mumbai the three property URLs are the squareyards, 99acres and
housing patterns containing mumbai. -/
theorem request_builder_url_shape :
    (∀ city : String,
      (find_properties_urls city).length = 3 ∧
      (∀ u ∈ find_properties_urls city,
        containsSub u (pyLower city) ∧ ∀ c ∈ u.data, c.isUpper = false) ∧
      (get_location_trends_urls city).length = 1 ∧
      (∀ u ∈ get_location_trends_urls city,
        containsSub u (pyLower city) ∧ ∀ c ∈ u.data, c.isUpper = false)) ∧
    find_properties_urls "Mumbai" =
      ["https://www.squareyards.com/sale/property-for-sale-in-mumbai/*",
       "https://www.99acres.com/property-in-mumbai-ffid/*",
       "https://housing.com/in/buy/mumbai/mumbai"] ∧
    containsSub "https://www.squareyards.com/sale/property-for-sale-in-mumbai/*" "mumbai" ∧
    containsSub "https://www.squareyards.com/sale/property-for-sale-in-mumbai/*" "squareyards" ∧
    containsSub "https://www.99acres.com/property-in-mumbai-ffid/*" "mumbai" ∧
    containsSub "https://www.99acres.com/property-in-mumbai-ffid/*" "99acres" ∧
    containsSub "https://housing.com/in/buy/mumbai/mumbai" "mumbai" ∧
    containsSub "https://housing.com/in/buy/mumbai/mumbai" "housing" := by
  refine ⟨?_, by decide, by decide, by decide, by decide, by decide, by decide, by decide⟩
  intro city
  refine ⟨rfl, ?_, rfl, ?_⟩
  · intro u hu
    simp only [find_properties_urls, List.mem_cons, List.mem_singleton, List.not_mem_nil,
      or_false] at hu
    rcases hu with rfl | rfl | rfl
    · exact ⟨containsSub_here _ _ _,
        append_chars (by decide) (append_chars (pyLower_chars city) (by decide))⟩
    · exact ⟨containsSub_here _ _ _,
        append_chars (by decide) (append_chars (pyLower_chars city) (by decide))⟩
    · exact ⟨containsSub_here _ _ _,
        append_chars (by decide) (append_chars (pyLower_chars city)
          (append_chars (by decide) (pyLower_chars city)))⟩
  · intro u hu
    simp only [get_location_trends_urls, List.mem_singleton] at hu
    subst hu
    exact ⟨containsSub_here _ _ _,
      append_chars (by decide) (append_chars (pyLower_chars city) (by decide))⟩

/-- C3: when the extraction backend returns a mapping with success false,
find_properties does not abort: it invokes the summarizer on the analysis
prompt embedding the empty record list (the text contains the two-character
empty-list form) and returns the generated text. -/
theorem success_false_proceeds_to_summarizer (run : String → String)
    (city max_price property_category property_type : String) :
    find_properties (fun _ _ => PyVal.dict [("success", PyVal.bool false)]) run
        city max_price property_category property_type
      = Except.ok (run (find_properties_analysis_prompt city max_price (PyVal.list []))) ∧
    containsSub (find_properties_analysis_prompt city max_price (PyVal.list [])) "[]" := by
  constructor
  · rfl
  · have e : pyRepr (PyVal.list []) = "[]" := rfl
    have hsub : containsSub (find_properties_analysis_prompt city max_price (PyVal.list []))
        (pyRepr (PyVal.list [])) := by
      unfold find_properties_analysis_prompt
      exact containsSub_skip _ (containsSub_skip _ (containsSub_skip _ (containsSub_head _ _)))
    exact e ▸ hsub

/-- C4: for every response lacking a truthy success flag, get_location_trends
returns the fixed no-data string, and the result does not depend on the
summarization backend at all (it is never invoked). -/
theorem trends_nonsuccess_no_data (v : PyVal) (run1 run2 : String → String) (city : String)
    (h : successCheck v = false) :
    get_location_trends (fun _ _ => v) run1 city = Except.ok "No price trends data available" ∧
    get_location_trends (fun _ _ => v) run1 city = get_location_trends (fun _ _ => v) run2 city := by
  have key : ∀ run : String → String,
      get_location_trends (fun _ _ => v) run city = Except.ok "No price trends data available" := by
    intro run
    cases v with
    | dict kvs =>
        have hb : truthy (pyGet kvs "success") = false := h
        simp [get_location_trends, hb]
    | none => rfl
    | bool b => rfl
    | int n => rfl
    | str s => rfl
    | list xs => rfl
  exact ⟨key run1, (key run1).trans (key run2).symm⟩

/-- Witness for trends_nonsuccess_no_data at a concrete success-false mapping. -/
theorem trends_nonsuccess_no_data_witness :
    successCheck (PyVal.dict [("success", PyVal.bool false)]) = false ∧
    (get_location_trends (fun _ _ => PyVal.dict [("success", PyVal.bool false)]) (fun s => s) "Pune"
       = Except.ok "No price trends data available" ∧
     get_location_trends (fun _ _ => PyVal.dict [("success", PyVal.bool false)]) (fun s => s) "Pune"
       = get_location_trends (fun _ _ => PyVal.dict [("success", PyVal.bool false)])
           (fun _ => "other text") "Pune") :=
  ⟨rfl, trends_nonsuccess_no_data (PyVal.dict [("success", PyVal.bool false)])
    (fun s => s) (fun _ => "other text") "Pune" rfl⟩

/-- C5: a trends response that is a mapping with success true and a data
payload whose locations list is empty still reaches the summarizer (the
check is only on the outer success flag) and the summarizer text is
returned, with the empty list embedded in the prompt. -/
theorem trends_empty_locations_still_summarizes (run : String → String) (city : String) :
    get_location_trends
        (fun _ _ => PyVal.dict
          [("success", PyVal.bool true), ("data", PyVal.dict [("locations", PyVal.list [])])])
        run city
      = Except.ok (run (get_location_trends_analysis_prompt city (PyVal.list []))) := rfl

/-- C6: a mapping with truthy success whose data payload carries the record
list under the schema top-level key passes exactly that list onward (the
same list, hence the same length and order) in both flows. -/
theorem success_payload_records_preserved
    (kvs1 d1 kvs2 d2 : List (String × PyVal)) (xs ys : List PyVal)
    (run : String → String) (city max_price property_category property_type : String)
    (h1 : truthy (pyGet kvs1 "success") = true)
    (h2 : lookupKey kvs1 "data" = some (PyVal.dict d1))
    (h3 : lookupKey d1 "properties" = some (PyVal.list xs))
    (h4 : truthy (pyGet kvs2 "success") = true)
    (h5 : lookupKey kvs2 "data" = some (PyVal.dict d2))
    (h6 : lookupKey d2 "locations" = some (PyVal.list ys)) :
    find_properties_records (PyVal.dict kvs1) = Except.ok (PyVal.list xs) ∧
    find_properties (fun _ _ => PyVal.dict kvs1) run city max_price property_category property_type
      = Except.ok (run (find_properties_analysis_prompt city max_price (PyVal.list xs))) ∧
    get_location_trends (fun _ _ => PyVal.dict kvs2) run city
      = Except.ok (run (get_location_trends_analysis_prompt city (PyVal.list ys))) := by
  have r1 : find_properties_records (PyVal.dict kvs1) = Except.ok (PyVal.list xs) := by
    simp [find_properties_records, h1, h2, pyGetD, h3]
  refine ⟨r1, ?_, ?_⟩
  · simp [find_properties, r1]
  · simp [get_location_trends, h4, h5, pyGetD, h6]

/-- Witness for success_payload_records_preserved at concrete two-record
payloads. -/
theorem success_payload_records_preserved_witness :
    truthy (pyGet [("success", PyVal.bool true),
      ("data", PyVal.dict [("properties", PyVal.list [PyVal.str "p1", PyVal.str "p2"])])] "success") = true ∧
    lookupKey [("success", PyVal.bool true),
      ("data", PyVal.dict [("properties", PyVal.list [PyVal.str "p1", PyVal.str "p2"])])] "data"
      = some (PyVal.dict [("properties", PyVal.list [PyVal.str "p1", PyVal.str "p2"])]) ∧
    lookupKey [("properties", PyVal.list [PyVal.str "p1", PyVal.str "p2"])] "properties"
      = some (PyVal.list [PyVal.str "p1", PyVal.str "p2"]) ∧
    find_properties_records (PyVal.dict [("success", PyVal.bool true),
      ("data", PyVal.dict [("properties", PyVal.list [PyVal.str "p1", PyVal.str "p2"])])])
      = Except.ok (PyVal.list [PyVal.str "p1", PyVal.str "p2"]) ∧
    get_location_trends (fun _ _ => PyVal.dict [("success", PyVal.bool true),
        ("data", PyVal.dict [("locations", PyVal.list [PyVal.str "loc1"])])]) (fun s => s) "Mumbai"
      = Except.ok ((fun s => s)
          (get_location_trends_analysis_prompt "Mumbai" (PyVal.list [PyVal.str "loc1"]))) := by
  have h := success_payload_records_preserved
    [("success", PyVal.bool true),
     ("data", PyVal.dict [("properties", PyVal.list [PyVal.str "p1", PyVal.str "p2"])])]
    [("properties", PyVal.list [PyVal.str "p1", PyVal.str "p2"])]
    [("success", PyVal.bool true),
     ("data", PyVal.dict [("locations", PyVal.list [PyVal.str "loc1"])])]
    [("locations", PyVal.list [PyVal.str "loc1"])]
    [PyVal.str "p1", PyVal.str "p2"] [PyVal.str "loc1"]
    (fun s => s) "Mumbai" "5.0" "Residential" "Flat" rfl rfl rfl rfl rfl rfl
  exact ⟨rfl, rfl, rfl, h.1, h.2.2⟩

/-- C7: request construction is a pure function of the supplied parameters:
two evaluations on identical inputs yield identical URL lists and
identical instruction text, for the property flow and the trends flow. -/
theorem request_builder_deterministic (p q : SearchParameters) (h : p = q) :
    buildPropertyRequest p = buildPropertyRequest q ∧
    buildTrendRequest p.city = buildTrendRequest q.city := by
  subst h
  exact ⟨rfl, rfl⟩

/-- Witness for request_builder_deterministic at a concrete parameter record. -/
theorem request_builder_deterministic_witness :
    SearchParameters.mk "Mumbai" "5.0" "Residential" "Flat"
      = SearchParameters.mk "Mumbai" "5.0" "Residential" "Flat" ∧
    (buildPropertyRequest (SearchParameters.mk "Mumbai" "5.0" "Residential" "Flat")
       = buildPropertyRequest (SearchParameters.mk "Mumbai" "5.0" "Residential" "Flat") ∧
     buildTrendRequest (SearchParameters.mk "Mumbai" "5.0" "Residential" "Flat").city
       = buildTrendRequest (SearchParameters.mk "Mumbai" "5.0" "Residential" "Flat").city) :=
  ⟨rfl, request_builder_deterministic _ _ rfl⟩

/-- C8: the city is case-normalized for URL construction only: every URL of
both flows contains the lowercased city, while the extraction instruction
and the two summarization prompts contain the city exactly as supplied. -/
theorem city_casing_urls_vs_prompts (city max_price property_category ptp : String)
    (properties locations : PyVal) :
    (∀ u ∈ find_properties_urls city, containsSub u (pyLower city)) ∧
    (∀ u ∈ get_location_trends_urls city, containsSub u (pyLower city)) ∧
    containsSub (find_properties_extraction_prompt property_category ptp city max_price) city ∧
    containsSub (find_properties_analysis_prompt city max_price properties) city ∧
    containsSub (get_location_trends_analysis_prompt city locations) city := by
  refine ⟨?_, ?_, ?_, ?_, ?_⟩
  · intro u hu
    simp only [find_properties_urls, List.mem_cons, List.mem_singleton, List.not_mem_nil,
      or_false] at hu
    rcases hu with rfl | rfl | rfl
    · exact containsSub_here _ _ _
    · exact containsSub_here _ _ _
    · exact containsSub_here _ _ _
  · intro u hu
    simp only [get_location_trends_urls, List.mem_singleton] at hu
    subst hu
    exact containsSub_here _ _ _
  · unfold find_properties_extraction_prompt
    exact containsSub_skip _ (containsSub_skip _ (containsSub_skip _ (containsSub_skip _
      (containsSub_here _ _ _))))
  · unfold find_properties_analysis_prompt
    exact containsSub_here _ _ _
  · unfold get_location_trends_analysis_prompt
    exact containsSub_here _ _ _

set_option maxRecDepth 16384 in
/-- C9 counterexample: at city Mumbai, max price 5.0, category Residential,
type Flat, the built extraction instruction does not contain the literal
constraint text quoted by the claim (the source text pluralizes the
records as properties). -/
theorem extraction_prompt_no_records_literal :
    ¬ containsSub
      (find_properties_extraction_prompt "Residential" (property_type_prompt "Flat") "Mumbai" "5.0")
      "at least 3 and up to 10 records" := by decide

/-- C9 amended: for every valid input the extraction instruction embeds the
property category, the pluralized type label (Flats when the type is Flat,
Individual Houses when it is Individual House), the max price, the city,
and the explicit constraint text: At least 3 and up to 10 properties
(the source says properties where the claim quoted records). -/
theorem extraction_prompt_embeds_fields
    (city max_price property_category property_type : String)
    (h : property_type = "Flat" ∨ property_type = "Individual House") :
    containsSub (find_properties_extraction_prompt property_category
        (property_type_prompt property_type) city max_price) property_category ∧
    (property_type = "Flat" → property_type_prompt property_type = "Flats") ∧
    (property_type = "Individual House" →
      property_type_prompt property_type = "Individual Houses") ∧
    containsSub (find_properties_extraction_prompt property_category
        (property_type_prompt property_type) city max_price)
      (property_type_prompt property_type) ∧
    containsSub (find_properties_extraction_prompt property_category
        (property_type_prompt property_type) city max_price) max_price ∧
    containsSub (find_properties_extraction_prompt property_category
        (property_type_prompt property_type) city max_price) city ∧
    containsSub (find_properties_extraction_prompt property_category
        (property_type_prompt property_type) city max_price)
      "At least 3 and up to 10 properties" := by
  refine ⟨?_, ?_, ?_, ?_, ?_, ?_, ?_⟩
  · unfold find_properties_extraction_prompt
    exact containsSub_skip _ (containsSub_head _ _)
  · intro he
    rw [he]
    rfl
  · intro he
    rw [he]
    rfl
  · unfold find_properties_extraction_prompt
    exact containsSub_skip _ (containsSub_skip _ (containsSub_skip _ (containsSub_head _ _)))
  · unfold find_properties_extraction_prompt
    exact containsSub_skip _ (containsSub_skip _ (containsSub_skip _ (containsSub_skip _
      (containsSub_skip _ (containsSub_skip _ (containsSub_skip _ (containsSub_head _ _)))))))
  · unfold find_properties_extraction_prompt
    exact containsSub_skip _ (containsSub_skip _ (containsSub_skip _ (containsSub_skip _
      (containsSub_here _ _ _))))
  · unfold find_properties_extraction_prompt
    repeat apply containsSub_skip
    decide

/-- Witness for extraction_prompt_embeds_fields at concrete parameters. -/
theorem extraction_prompt_embeds_fields_witness :
    ("Flat" = "Flat" ∨ ("Flat" : String) = "Individual House") ∧
    (containsSub (find_properties_extraction_prompt "Residential"
        (property_type_prompt "Flat") "Mumbai" "5.0") "Residential" ∧
    (("Flat" : String) = "Flat" → property_type_prompt "Flat" = "Flats") ∧
    (("Flat" : String) = "Individual House" →
      property_type_prompt "Flat" = "Individual Houses") ∧
    containsSub (find_properties_extraction_prompt "Residential"
        (property_type_prompt "Flat") "Mumbai" "5.0") (property_type_prompt "Flat") ∧
    containsSub (find_properties_extraction_prompt "Residential"
        (property_type_prompt "Flat") "Mumbai" "5.0") "5.0" ∧
    containsSub (find_properties_extraction_prompt "Residential"
        (property_type_prompt "Flat") "Mumbai" "5.0") "Mumbai" ∧
    containsSub (find_properties_extraction_prompt "Residential"
        (property_type_prompt "Flat") "Mumbai" "5.0") "At least 3 and up to 10 properties") :=
  ⟨Or.inl rfl, extraction_prompt_embeds_fields "Mumbai" "5.0" "Residential" "Flat" (Or.inl rfl)⟩

/-- C10: a mapping with truthy success whose data payload lacks the record
key is treated as success with zero records: both flows hand the
summarizer the empty list and return its text, and the trends flow takes
the summarizer branch rather than the no-data branch. -/
theorem missing_record_key_defaults_empty
    (kvs1 d1 kvs2 d2 : List (String × PyVal)) (run : String → String)
    (city max_price property_category property_type : String)
    (h1 : truthy (pyGet kvs1 "success") = true)
    (h2 : lookupKey kvs1 "data" = some (PyVal.dict d1))
    (h3 : lookupKey d1 "properties" = Option.none)
    (h4 : truthy (pyGet kvs2 "success") = true)
    (h5 : lookupKey kvs2 "data" = some (PyVal.dict d2))
    (h6 : lookupKey d2 "locations" = Option.none) :
    find_properties (fun _ _ => PyVal.dict kvs1) run city max_price property_category property_type
      = Except.ok (run (find_properties_analysis_prompt city max_price (PyVal.list []))) ∧
    get_location_trends (fun _ _ => PyVal.dict kvs2) run city
      = Except.ok (run (get_location_trends_analysis_prompt city (PyVal.list []))) := by
  have r1 : find_properties_records (PyVal.dict kvs1) = Except.ok (PyVal.list []) := by
    simp [find_properties_records, h1, h2, pyGetD, h3]
  constructor
  · simp [find_properties, r1]
  · simp [get_location_trends, h4, h5, pyGetD, h6]

/-- Witness for missing_record_key_defaults_empty at concrete payloads that
lack the record keys. -/
theorem missing_record_key_defaults_empty_witness :
    truthy (pyGet [("success", PyVal.bool true),
      ("data", PyVal.dict [("other", PyVal.none)])] "success") = true ∧
    lookupKey [("success", PyVal.bool true),
      ("data", PyVal.dict [("other", PyVal.none)])] "data"
      = some (PyVal.dict [("other", PyVal.none)]) ∧
    lookupKey [("other", PyVal.none)] "properties" = Option.none ∧
    lookupKey [("other", PyVal.none)] "locations" = Option.none ∧
    (find_properties (fun _ _ => PyVal.dict [("success", PyVal.bool true),
        ("data", PyVal.dict [("other", PyVal.none)])]) (fun s => s) "Mumbai" "5.0" "Residential" "Flat"
       = Except.ok ((fun s => s) (find_properties_analysis_prompt "Mumbai" "5.0" (PyVal.list []))) ∧
     get_location_trends (fun _ _ => PyVal.dict [("success", PyVal.bool true),
        ("data", PyVal.dict [("other", PyVal.none)])]) (fun s => s) "Mumbai"
       = Except.ok ((fun s => s) (get_location_trends_analysis_prompt "Mumbai" (PyVal.list [])))) :=
  ⟨rfl, rfl, rfl, rfl, missing_record_key_defaults_empty
    [("success", PyVal.bool true), ("data", PyVal.dict [("other", PyVal.none)])]
    [("other", PyVal.none)]
    [("success", PyVal.bool true), ("data", PyVal.dict [("other", PyVal.none)])]
    [("other", PyVal.none)]
    (fun s => s) "Mumbai" "5.0" "Residential" "Flat" rfl rfl rfl rfl rfl rfl⟩
